import Mathlib

/-!
Verification development for the HL7-v2-to-FHIR transform core of
`hl7_fhir_tool`: the transformer registry, the per-event transformers
(ADT^A01, ADT^A03, ADT^A08, ORM^O01, ORU^R01), the dual-path field
extractor and the value-coercion helpers.

Modelling conventions (shallow embedding of the Python source):

* Python strings are Lean `String`s; `str.strip()` is `pyStrip`,
  `str.upper()` is `pyUpper` (ASCII; the inputs of interest are ASCII),
  `str.isdigit()` is `isPyDigits`, `str.split(sep)` is `pySplit`; all
  text primitives are structural List-Char functions so that concrete
  runs reduce in the kernel.
* An hl7apy element reached by attribute access is modelled as `HVal`:
  `er7v` is the string its `to_er7()`/`str()` rendering produces, with
  `none` meaning the call raises (every such call site in the source is
  inside a `try/except`, whose handler is modelled explicitly), and
  `truthy` is its Python truth value (hl7apy element lists are falsy
  when empty).
* A field that hl7apy may expose as a repetition list is modelled as
  `FieldRep`: `single` is an object without a usable `__len__` (calling
  `len` on it raises), `listOf` is a sequence.
* `None`-able attributes are `Option`s; `getattr(x, a, d)` returning the
  default is the `none` case.
* The FHIR resource classes (pydantic models) are modelled as plain
  records with total field assignment: the spec places the resource
  model's own validation/serialization outside the core, and the
  transformers guard the few strict setters with `try/except` anyway.
* All embedded functions are total; the Python code's catch-all handlers
  around each access are reflected in the `Option`/match structure, so
  "never raises" claims are settled by the explicit handling of every
  failure constructor of the input model.
-/

namespace HL7

/-- Whitespace characters stripped by Python `str.strip()` (ASCII subset:
space, tab, newline, vertical tab, form feed, carriage return). -/
def isPyWs (c : Char) : Bool :=
  c = ' ' || c = '\t' || c = '\n' || c = '\x0B' || c = '\x0C' || c = '\r'

/-- Python `str.strip()`: remove leading and trailing whitespace. -/
def pyStrip (s : String) : String :=
  String.mk (((s.data.dropWhile isPyWs).reverse.dropWhile isPyWs).reverse)

/-- Python `str.upper()` restricted to ASCII. -/
def pyUpper (s : String) : String :=
  String.mk (s.data.map Char.toUpper)

/-- Python `str.isdigit()` for ASCII content: nonempty and all digits. -/
def isPyDigits (s : String) : Bool :=
  !s.data.isEmpty && s.data.all Char.isDigit

/-- Python `len(s)` (code points). -/
def sLen (s : String) : Nat := s.data.length

/-- Python slicing `s[:n]`. -/
def chTake (s : String) (n : Nat) : String := String.mk (s.data.take n)

/-- Python slicing `s[n:]`. -/
def chDrop (s : String) (n : Nat) : String := String.mk (s.data.drop n)

/-- Decimal value of a digit list. -/
def digitsVal (l : List Char) : Nat :=
  l.foldl (fun acc c => acc * 10 + (c.toNat - '0'.toNat)) 0

/-- Numeric value of a digit string (`int(s)` on validated digits). -/
def natOf (s : String) : Nat := digitsVal s.data

/-- Python `s.split(sep)` for a single-character separator: keep empty
parts, never return an empty list. -/
def splitChAux (sep : Char) : List Char → List (List Char)
  | [] => [[]]
  | a :: rest =>
    let r := splitChAux sep rest
    if a = sep then [] :: r
    else
      match r with
      | h :: t => (a :: h) :: t
      | [] => [[a]]

/-- String-level wrapper of `splitChAux`. -/
def pySplit (sep : Char) (s : String) : List String :=
  (splitChAux sep s.data).map String.mk

/-- Python `s.startswith(p)`. -/
def pyStartsWith (s p : String) : Bool :=
  p.data.isPrefixOf s.data

/-- Gregorian leap-year test, as used by `datetime.strptime`. -/
def isLeapYear (y : Nat) : Bool :=
  (y % 4 == 0 && y % 100 != 0) || y % 400 == 0

/-- Days in a month, as validated by `datetime.strptime`. -/
def daysInMonth (y m : Nat) : Nat :=
  if m == 2 then (if isLeapYear y then 29 else 28)
  else if m == 4 || m == 6 || m == 9 || m == 11 then 30
  else 31

/-- Does `datetime.strptime(t, "%Y%m%d")` succeed on an 8-character
string: all digits, year at least 1, month 1-12, day within the month. -/
def validYmd8 (t : String) : Bool :=
  sLen t == 8 && t.data.all Char.isDigit &&
    (let y := natOf (chTake t 4)
     let m := natOf (chTake (chDrop t 4) 2)
     let d := natOf (chTake (chDrop t 6) 2)
     Nat.ble 1 y && Nat.ble 1 m && Nat.ble m 12 && Nat.ble 1 d &&
       Nat.ble d (daysInMonth y m))

/-- Does `datetime.strptime(t, "%Y%m%d%H%M%S")` succeed on a 14-character
digit string and produce a `datetime` (hour 0-23, minute and second 0-59;
a leap-second value raises in the `datetime` constructor, which the
caller's handler catches). -/
def validYmdHms14 (t : String) : Bool :=
  sLen t == 14 && t.data.all Char.isDigit &&
    validYmd8 (chTake t 8) &&
    (let hh := natOf (chTake (chDrop t 8) 2)
     let mi := natOf (chTake (chDrop t 10) 2)
     let ss := natOf (chTake (chDrop t 12) 2)
     Nat.ble hh 23 && Nat.ble mi 59 && Nat.ble ss 59)

/-- `date(y, m, d).isoformat()` for an 8-digit string: insert dashes. -/
def dash8 (t : String) : String :=
  chTake t 4 ++ "-" ++ chTake (chDrop t 4) 2 ++ "-" ++ chTake (chDrop t 6) 2

/-- `YYYY-MM` rendering of a 6-digit string. -/
def dash6 (t : String) : String :=
  chTake t 4 ++ "-" ++ chDrop t 4

/-- ISO rendering of a UTC `datetime` built from a valid 14-digit string. -/
def isoInstant14 (t : String) : String :=
  dash8 (chTake t 8) ++ "T" ++ chTake (chDrop t 8) 2 ++ ":" ++
    chTake (chDrop t 10) 2 ++ ":" ++ chTake (chDrop t 12) 2 ++ "+00:00"

/-- ISO rendering of midnight UTC on a valid 8-digit date. -/
def isoMidnight8 (t : String) : String :=
  dash8 (chTake t 8) ++ "T00:00:00+00:00"

/-- An hl7apy element as seen through attribute access: `er7v` is the
string its `to_er7()`/`str()` rendering yields (`none`: the call
raises), `truthy` is its Python truth value. -/
structure HVal where
  er7v : Option String
  truthy : Bool
deriving Repr, DecidableEq

/-- Shorthand for an ordinary element rendering to `s`. -/
def hv (s : String) : HVal := ⟨some s, true⟩

/-- Embedding of the module-level `_er7` helper of `oru_r01.py` /
`orm_o01.py`: empty string for `None` or a raising rendering, otherwise
the stripped rendering. -/
def er7S : Option HVal → String
  | none => ""
  | some v =>
    match v.er7v with
    | none => ""
    | some s => pyStrip s

/-- Embedding of `_safe_str` of `adt_a01.py`: the raw rendering, or the
empty string when the call raises. -/
def safeStr (v : HVal) : String := v.er7v.getD ""

/-- Embedding of `_field_comp_from_er7` (identical in `oru_r01.py` and
`orm_o01.py`): extract a 1-based component of a 1-based field from a raw
ER7 segment line. Total by construction; each out-of-range index is
turned into `none` by an explicit bound check before any indexing. -/
def fieldCompFromEr7 (er7Line : Option String) (fieldIndex compIndex : Int) :
    Option String :=
  match er7Line with
  | none => none
  | some line =>
    if line = "" then none
    else
      let parts := pySplit '|' (pyStrip line)
      if fieldIndex < 1 ∨ (parts.length : Int) ≤ fieldIndex then none
      else
        let field := parts.getD fieldIndex.toNat ""
        let comps := if field = "" then [] else pySplit '^' field
        if compIndex < 1 ∨ (comps.length : Int) < compIndex then none
        else
          let val := pyStrip (comps.getD (compIndex.toNat - 1) "")
          if val = "" then none else some val

/-- A field attribute that hl7apy may expose as a repetition sequence:
`single` is an object without a usable `__len__` (so `len` raises),
`listOf` is a sequence of repetitions. -/
inductive FieldRep (α : Type) where
  | single (a : α)
  | listOf (l : List α)
deriving Repr, DecidableEq

/-- A `CX` repetition of PID-3 as probed by the transformers. -/
structure CxRep where
  cx_1 : Option HVal
  id_number : Option HVal
deriving Repr, DecidableEq

/-- An `XPN` repetition of PID-5 as probed by the transformers. -/
structure XpnRep where
  family_name : Option HVal
  given_name : Option HVal
deriving Repr, DecidableEq

/-- The PID segment attributes read by the transformers; `none` models
an attribute access that yields `None`. -/
structure PidSeg where
  pid_3 : Option (FieldRep CxRep)
  pid_5 : Option (FieldRep XpnRep)
  pid_7 : Option HVal
  pid_8 : Option HVal
deriving Repr, DecidableEq

/-- A PID segment with no readable attribute. -/
def emptyPid : PidSeg := ⟨none, none, none, none⟩

/-- The PV1 segment attributes read by the ADT transformers. -/
structure Pv1Seg where
  pv1_2 : Option HVal
  pv1_19 : Option HVal
  pv1_44 : Option HVal
  pv1_45 : Option HVal
deriving Repr, DecidableEq

/-- A PV1 segment with no readable attribute. -/
def emptyPv1 : Pv1Seg := ⟨none, none, none, none⟩

/-! ### FHIR output records

Plain records standing for the pydantic resource models; the resource
layer's own validation is outside the core per the design's scope. -/

/-- `fhir.resources` `Coding` restricted to the fields the core sets. -/
structure CodingR where
  code : Option String
deriving Repr, DecidableEq

/-- `CodeableConcept` restricted to the fields the core sets. -/
structure CodeableConceptR where
  coding : Option (List CodingR)
  text : Option String
deriving Repr, DecidableEq

/-- `HumanName` restricted to the fields the core sets. -/
structure HumanNameR where
  family : Option String
  given : Option (List String)
deriving Repr, DecidableEq

/-- `Identifier` restricted to the fields the core sets. -/
structure IdentifierR where
  value : Option String
deriving Repr, DecidableEq

/-- `Patient` restricted to the fields the core sets. `birthDate` holds
the ISO string handed to the resource model. -/
structure PatientR where
  id : Option String
  identifier : Option (List IdentifierR)
  name : Option (List HumanNameR)
  birthDate : Option String
  gender : Option String
deriving Repr, DecidableEq

/-- A `Patient()` with nothing populated. -/
def emptyPatient : PatientR := ⟨none, none, none, none, none⟩

/-- `Period` restricted to the fields the core sets. -/
structure PeriodR where
  startDate : Option String
  endDate : Option String
deriving Repr, DecidableEq

/-- `Encounter` restricted to the fields the core sets (`classFhir`
models the `class_fhir` coded-concept field). -/
structure EncounterR where
  status : Option String
  classFhir : Option CodeableConceptR
  id : Option String
  period : Option PeriodR
deriving Repr, DecidableEq

/-- An `Encounter.model_construct()` skeleton. -/
def emptyEncounter : EncounterR := ⟨none, none, none, none⟩

/-- `Quantity` restricted to the fields the core sets; `value` holds the
decimal literal accepted by `Decimal`. -/
structure QuantityR where
  value : String
  unit : Option String
deriving Repr, DecidableEq

/-- `Reference` restricted to the fields the core sets. -/
structure ReferenceR where
  reference : String
deriving Repr, DecidableEq

/-- `Observation` restricted to the fields the core sets. -/
structure ObservationR where
  id : Option String
  status : String
  code : CodeableConceptR
  subject : ReferenceR
  effectiveDateTime : Option String
  identifier : Option (List IdentifierR)
  valueQuantity : Option QuantityR
  valueString : Option String
deriving Repr, DecidableEq

/-- The resource records a transformer may emit. -/
inductive FhirResource where
  | patient (p : PatientR)
  | encounter (e : EncounterR)
  | observation (o : ObservationR)
deriving Repr, DecidableEq

/-! ### ADT^A01 helpers (`adt_a01.py`) -/

/-- Embedding of `_pid_identifier`: PID-3 first repetition's
`id_number`, rendered by `_safe_str`. The `len` call on a non-sequence
raises and the handler returns `None`; an empty repetition list is falsy
and skips the block. -/
def pidIdentifierA01 (pid : PidSeg) : Option String :=
  match pid.pid_3 with
  | some (.listOf (c :: _)) =>
    match c.id_number with
    | some v => if v.truthy then some (safeStr v) else none
    | none => none
  | _ => none

/-- Embedding of `_pid_name`: family and given parts of the first PID-5
repetition, guarded by truthiness probes; any raise is caught and yields
`(None, [])`. -/
def pidNameA01 (pid : PidSeg) : Option String × List String :=
  match pid.pid_5 with
  | some (.listOf (x :: _)) =>
    let fam := match x.family_name with
      | some v => if v.truthy then some (safeStr v) else none
      | none => none
    let giv : List String := match x.given_name with
      | some v => if v.truthy then [safeStr v] else []
      | none => []
    (fam, giv)
  | _ => (none, [])

/-- Embedding of `_pid_birthdate`: accept exactly 8, 6 or 4 digit values
(after strip), reject everything else including timestamp shapes. No
calendar validation is performed — the digits are re-arranged textually. -/
def pidBirthdateA01 (pid : PidSeg) : Option String :=
  match pid.pid_7 with
  | some v =>
    if v.truthy then
      let raw := pyStrip (safeStr v)
      if isPyDigits raw then
        if sLen raw = 8 then some (dash8 raw)
        else if sLen raw = 6 then some (dash6 raw)
        else if sLen raw = 4 then some raw
        else none
      else none
    else none
  | none => none

/-- Embedding of `_pid_gender`: strip and uppercase PID-8, return `none`
for empty, map by leading letter M/F/O/U, default `unknown`. -/
def pidGenderA01 (pid : PidSeg) : Option String :=
  let val := pyUpper (pyStrip (match pid.pid_8 with
    | none => ""
    | some v => safeStr v))
  if val = "" then none
  else if pyStartsWith val "M" then some "male"
  else if pyStartsWith val "F" then some "female"
  else if pyStartsWith val "O" then some "other"
  else if pyStartsWith val "U" then some "unknown"
  else some "unknown"

/-- Embedding of `ADTA01Transformer._build_patient`: populate the lenient
patient from PID, each field independently optional. -/
def buildPatientA01 (pid : Option PidSeg) : PatientR :=
  match pid with
  | none => emptyPatient
  | some pd =>
    let identifier : Option (List IdentifierR) :=
      match pidIdentifierA01 pd with
      | some v => if v ≠ "" then some [⟨some v⟩] else none
      | none => none
    let famGiv := pidNameA01 pd
    let famT : Bool := famGiv.1.getD "" ≠ ""
    let givT : Bool := !famGiv.2.isEmpty
    let name : Option (List HumanNameR) :=
      if famT || givT then
        some [⟨if famT then famGiv.1 else none,
               if givT then some famGiv.2 else none⟩]
      else none
    { id := none
      identifier := identifier
      name := name
      birthDate := pidBirthdateA01 pd
      gender := pidGenderA01 pd }

/-- Embedding of `ADTA01Transformer._build_encounter`: a skeleton, with
status `in-progress` when PV1 is present. No class is ever set. -/
def buildEncounterA01 (pv1 : Option Pv1Seg) : EncounterR :=
  match pv1 with
  | none => emptyEncounter
  | some _ => { emptyEncounter with status := some "in-progress" }

/-- The message attributes read by the ADT transformers. -/
structure AdtMsg where
  PID : Option PidSeg
  PV1 : Option Pv1Seg
deriving Repr, DecidableEq

/-- Embedding of `ADTA01Transformer.transform`: always a patient followed
by an encounter. -/
def adtA01Transform (msg : AdtMsg) : List FhirResource :=
  [.patient (buildPatientA01 msg.PID), .encounter (buildEncounterA01 msg.PV1)]

/-! ### ADT^A03 (`adt_a03.py`) -/

/-- Embedding of `_parse_hl7_ts`: an ISO date from the first 8 characters
when `strptime` succeeds on them, else `None`. -/
def parseHl7Ts (ts : String) : Option String :=
  if 8 ≤ sLen ts ∧ validYmd8 (chTake ts 8) then some (dash8 (chTake ts 8))
  else none

/-- PID-3 step of the A03 patient parse, carried out after the name step
with the already-assigned name; a raise inside it is caught by the
segment-level handler, keeping what was set before. -/
def a03IdStep (nm : Option (List HumanNameR)) (pd : PidSeg) : PatientR :=
  let base : PatientR := { emptyPatient with name := nm }
  match pd.pid_3 with
  | some (.single _) => base
  | some (.listOf (c :: _)) =>
    match c.cx_1 with
    | some v =>
      if v.truthy then
        match v.er7v with
        | none => base
        | some s => if s ≠ "" then { base with id := some s } else base
      else
        let s := v.er7v.getD ""
        if s ≠ "" then { base with id := some s } else base
    | none => base
  | _ => base

/-- Embedding of the PID parse inside `ADTA03Transformer.transform`: the
name step runs first and a raising rendering aborts the whole PID block
(the single `try` covers name and identifier), leaving the patient
untouched so far. -/
def buildPatientA03 (pid : Option PidSeg) : PatientR :=
  match pid with
  | none => emptyPatient
  | some pd =>
    match pd.pid_5 with
    | some (.single _) => emptyPatient
    | some (.listOf (x :: _)) =>
      match x.family_name, x.given_name with
      | some ⟨none, _⟩, _ => emptyPatient
      | _, some ⟨none, _⟩ => emptyPatient
      | famA, givA =>
        let family := match famA with
          | some v => v.er7v.getD ""
          | none => ""
        let given := match givA with
          | some v => v.er7v.getD ""
          | none => ""
        let nm : Option (List HumanNameR) :=
          if family ≠ "" ∨ given ≠ "" then
            some [⟨if family ≠ "" then some family else none,
                   if given ≠ "" then some [given] else none⟩]
          else none
        a03IdStep nm pd
    | _ => a03IdStep none pd

/-- Shared result shape of the PV1 parse: class concept, encounter id,
period start, period end. -/
def Pv1Parts : Type :=
  Option CodeableConceptR × Option String × Option String × Option String

/-- PV1-45 step of the A03 encounter parse. -/
def a03Enc45 (cls : Option CodeableConceptR) (eid sd : Option String)
    (pv : Pv1Seg) : Pv1Parts :=
  match pv.pv1_45 with
  | some v =>
    if v.truthy then
      match v.er7v with
      | none => (cls, eid, sd, none)
      | some val => (cls, eid, sd, parseHl7Ts val)
    else (cls, eid, sd, none)
  | none => (cls, eid, sd, none)

/-- PV1-44 step of the A03 encounter parse; a raising rendering aborts
the rest of the PV1 block. -/
def a03Enc44 (cls : Option CodeableConceptR) (eid : Option String)
    (pv : Pv1Seg) : Pv1Parts :=
  match pv.pv1_44 with
  | some v =>
    if v.truthy then
      match v.er7v with
      | none => (cls, eid, none, none)
      | some val => a03Enc45 cls eid (parseHl7Ts val) pv
    else a03Enc45 cls eid none pv
  | none => a03Enc45 cls eid none pv

/-- PV1-19 step of the A03 encounter parse. -/
def a03Enc19 (cls : Option CodeableConceptR) (pv : Pv1Seg) : Pv1Parts :=
  match pv.pv1_19 with
  | some v =>
    if v.truthy then
      match v.er7v with
      | none => (cls, none, none, none)
      | some eid => a03Enc44 cls (some eid) pv
    else a03Enc44 cls none pv
  | none => a03Enc44 cls none pv

/-- Embedding of the PV1 parse inside `ADTA03Transformer.transform`:
class from PV1-2, id from PV1-19, period from PV1-44/45, with a raising
rendering aborting the remainder of the block. -/
def a03EncounterParts (pv1 : Option Pv1Seg) : Pv1Parts :=
  match pv1 with
  | none => (none, none, none, none)
  | some pv =>
    match pv.pv1_2 with
    | some v =>
      if v.truthy then
        match v.er7v with
        | none => (none, none, none, none)
        | some code => a03Enc19 (some ⟨some [⟨some code⟩], none⟩) pv
      else a03Enc19 none pv
    | none => a03Enc19 none pv

/-- Python rendering of `Patient.id` inside the A03 fallback f-string:
the attribute exists on the model, so `None` renders as `"None"`. -/
def a03IdStr (p : PatientR) : String :=
  match p.id with
  | some s => s
  | none => "None"

/-- Embedding of `ADTA03Transformer.transform`: a patient then a finished
encounter whose class wrapper is always present (empty coding fallback)
and whose id falls back to `enc-{patient.id}`. -/
def adtA03Transform (msg : AdtMsg) : List FhirResource :=
  let patient := buildPatientA03 msg.PID
  let parts := a03EncounterParts msg.PV1
  let cls := parts.1
  let eid := parts.2.1
  let sd := parts.2.2.1
  let ed := parts.2.2.2
  let encId := match eid with
    | some s => if s ≠ "" then s else "enc-" ++ a03IdStr patient
    | none => "enc-" ++ a03IdStr patient
  let cls2 := cls.getD ⟨some [], none⟩
  let period : Option PeriodR :=
    if sd.isSome ∨ ed.isSome then some ⟨sd, ed⟩ else none
  [.patient patient,
   .encounter ⟨some "finished", some cls2, some encId, period⟩]

/-! ### ADT^A08 (`adt_a08.py`) -/

/-- Embedding of `_parse_hl7_yyyymmdd` (shared text of `adt_a08.py`,
`orm_o01.py` and `oru_r01.py`): strip the rendering, require at least 8
leading digits forming a valid calendar date, ignore anything after
them; everything else — including 6- and 4-digit values — is `None`. -/
def parseHl7Yyyymmdd (v : HVal) : Option String :=
  match v.er7v with
  | none => none
  | some s0 =>
    let s := pyStrip s0
    if 8 ≤ sLen s ∧ validYmd8 (chTake s 8) then some (dash8 (chTake s 8))
    else none

/-- Birth-date and gender steps of the A08 patient parse. PID-8 present
(even raising or empty) always sets a gender; only M and F map to
male/female, everything else becomes `unknown`. -/
def a08BdGender (base : PatientR) (pd : PidSeg) : PatientR :=
  let bd := match pd.pid_7 with
    | some v => parseHl7Yyyymmdd v
    | none => none
  let base := if bd.isSome then { base with birthDate := bd } else base
  match pd.pid_8 with
  | some v =>
    let g := pyUpper (pyStrip (v.er7v.getD ""))
    let gval := if g = "M" then "male"
      else if g = "F" then "female"
      else "unknown"
    { base with gender := some gval }
  | none => base

/-- PID-5 step of the A08 patient parse; the family/given renderings are
direct `to_er7` calls, so a raise aborts the rest of the PID block,
keeping the identifier already set. -/
def a08Name (idv : Option String) (pd : PidSeg) : PatientR :=
  let base := { emptyPatient with id := idv }
  match pd.pid_5 with
  | some (.single _) => base
  | some (.listOf (x :: _)) =>
    match x.family_name, x.given_name with
    | some ⟨none, _⟩, _ => base
    | _, some ⟨none, _⟩ => base
    | famA, givA =>
      let famS : Option String := match famA with
        | some v => some (v.er7v.getD "")
        | none => none
      let givS : Option String := match givA with
        | some v => some (v.er7v.getD "")
        | none => none
      let famT : Bool := famS.getD "" ≠ ""
      let givT : Bool := givS.getD "" ≠ ""
      let hn : HumanNameR :=
        ⟨if famT then famS else none,
         if givT then some [givS.getD ""] else none⟩
      let base := if famT || givT then { base with name := some [hn] }
        else base
      a08BdGender base pd
  | _ => a08BdGender base pd

/-- Embedding of `ADTA08Transformer._build_patient`. -/
def buildPatientA08 (pid : Option PidSeg) : PatientR :=
  match pid with
  | none => emptyPatient
  | some pd =>
    match pd.pid_3 with
    | some (.single _) => emptyPatient
    | some (.listOf (c :: _)) =>
      let idv : Option String :=
        match c.cx_1 with
        | some v =>
          match v.er7v with
          | none => none
          | some s => if s ≠ "" then some s else none
        | none => none
      a08Name idv pd
    | _ => a08Name none pd

/-- PV1-44/45 steps of the A08 encounter parse; the date helper catches
its own failures so these steps cannot abort. -/
def a08Enc44 (cls : Option CodeableConceptR) (eid : Option String)
    (pv : Pv1Seg) : Pv1Parts :=
  let sd := match pv.pv1_44 with
    | some v => if v.truthy then parseHl7Yyyymmdd v else none
    | none => none
  let ed := match pv.pv1_45 with
    | some v => if v.truthy then parseHl7Yyyymmdd v else none
    | none => none
  (cls, eid, sd, ed)

/-- PV1-19 step of the A08 encounter parse. -/
def a08Enc19 (cls : Option CodeableConceptR) (pv : Pv1Seg) : Pv1Parts :=
  match pv.pv1_19 with
  | some v =>
    if v.truthy then
      match v.er7v with
      | none => (cls, none, none, none)
      | some eid => a08Enc44 cls (some eid) pv
    else a08Enc44 cls none pv
  | none => a08Enc44 cls none pv

/-- Embedding of the PV1 parse inside
`ADTA08Transformer._build_encounter`. -/
def a08EncounterParts (pv1 : Option Pv1Seg) : Pv1Parts :=
  match pv1 with
  | none => (none, none, none, none)
  | some pv =>
    match pv.pv1_2 with
    | some v =>
      if v.truthy then
        match v.er7v with
        | none => (none, none, none, none)
        | some code => a08Enc19 (some ⟨some [⟨some code⟩], none⟩) pv
      else a08Enc19 none pv
    | none => a08Enc19 none pv

/-- Embedding of `ADTA08Transformer._build_encounter`: in-progress
status, class wrapper always present, id falling back to
`enc-{patient.id or 'unknown'}`. -/
def buildEncounterA08 (pv1 : Option Pv1Seg) (patient : PatientR) :
    EncounterR :=
  let parts := a08EncounterParts pv1
  let cls := parts.1
  let eid := parts.2.1
  let sd := parts.2.2.1
  let ed := parts.2.2.2
  let fallback := "enc-" ++
    (match patient.id with
     | some s => if s = "" then "unknown" else s
     | none => "unknown")
  let encId := match eid with
    | some s => if s ≠ "" then s else fallback
    | none => fallback
  let cls2 := cls.getD ⟨some [], none⟩
  let period : Option PeriodR :=
    if sd.isSome ∨ ed.isSome then some ⟨sd, ed⟩ else none
  ⟨some "in-progress", some cls2, some encId, period⟩

/-- Embedding of `ADTA08Transformer.transform`. -/
def adtA08Transform (msg : AdtMsg) : List FhirResource :=
  let patient := buildPatientA08 msg.PID
  [.patient patient, .encounter (buildEncounterA08 msg.PV1 patient)]

/-! ### ORU^R01 (`oru_r01.py`) -/

/-- Python `a or b` over optional hl7apy elements: the left value when it
is present and truthy, otherwise the right. -/
def pyOrH : Option HVal → Option HVal → Option HVal
  | some v, b => if v.truthy then some v else b
  | none, b => b

/-- Embedding of `_first_rep` combined with the surrounding
`getattr`/`None` handling: the single object itself, or the first
repetition of a nonempty sequence. An empty repetition list yields no
usable repetition (its attribute probes return `None` and its rendering
is empty, which every caller filters by truthiness). -/
def firstRepF {α : Type} : Option (FieldRep α) → Option α
  | none => none
  | some (.single a) => some a
  | some (.listOf (a :: _)) => some a
  | some (.listOf []) => none

/-- A `CE` repetition of OBX-3/OBX-6 as probed by the transformer. -/
structure CeRep where
  identifier : Option HVal
  ce_1 : Option HVal
  text : Option HVal
  ce_2 : Option HVal
deriving Repr, DecidableEq

/-- The OBR segment attributes read by the transformer. -/
structure ObrSeg where
  obr_2 : Option (FieldRep HVal)
  obr_3 : Option (FieldRep HVal)
deriving Repr, DecidableEq

/-- The OBX segment attributes read by the transformer. -/
structure ObxSeg where
  obx_3 : Option (FieldRep CeRep)
  obx_5 : Option (FieldRep HVal)
  obx_6 : Option (FieldRep CeRep)
deriving Repr, DecidableEq

/-- PID-3 value inside `ORUR01Transformer._build_patient`: first
repetition (or the non-sequence object itself), then `cx_1 or id_number`
by truthiness, rendered by `_er7`. -/
def oruPid3Val (pd : PidSeg) : Option String :=
  match pd.pid_3 with
  | none => none
  | some rep =>
    let rep0 : Option CxRep := match rep with
      | .single a => some a
      | .listOf (a :: _) => some a
      | .listOf [] => none
    match rep0 with
    | some r =>
      match pyOrH r.cx_1 r.id_number with
      | some c => some (er7S (some c))
      | none => none
    | none => none

/-- Structured PID-5 family/given inside
`ORUR01Transformer._build_patient` (first repetition of a nonempty
sequence only). -/
def oruPid5Val (pd : PidSeg) : Option String × Option String :=
  match pd.pid_5 with
  | some (.listOf (x :: _)) =>
    (x.family_name.map (fun v => er7S (some v)),
     x.given_name.map (fun v => er7S (some v)))
  | _ => (none, none)

/-- Does `Decimal(s)` succeed: optional sign, then a digit/point numeric
form with an optional exponent, or one of the special values
Infinity/NaN/sNaN (case-insensitive, with optional diagnostic digits).
Underscore separators and non-ASCII digits are not modelled. -/
def dropSign : List Char → List Char
  | c :: rest => if c = '+' || c = '-' then rest else c :: rest
  | [] => []

/-- Digit/point mantissa accepted by `Decimal`. -/
def mantissaOk (l : List Char) : Bool :=
  let ip := l.takeWhile (fun c => c ≠ '.')
  let rest := l.dropWhile (fun c => c ≠ '.')
  match rest with
  | [] => !ip.isEmpty && ip.all Char.isDigit
  | _ :: frac =>
    ip.all Char.isDigit && frac.all Char.isDigit &&
      (!ip.isEmpty || !frac.isEmpty)

/-- Full `Decimal(s)` acceptance test. -/
def isPyDecimal (s : String) : Bool :=
  let u := s.data.map Char.toUpper
  let b := dropSign u
  if b = ['I', 'N', 'F'] || b = ['I', 'N', 'F', 'I', 'N', 'I', 'T', 'Y']
  then true
  else if b.take 3 = ['N', 'A', 'N'] then (b.drop 3).all Char.isDigit
  else if b.take 4 = ['S', 'N', 'A', 'N'] then (b.drop 4).all Char.isDigit
  else
    let mant := b.takeWhile (fun c => c ≠ 'E')
    let rest := b.dropWhile (fun c => c ≠ 'E')
    match rest with
    | [] => mantissaOk mant
    | _ :: ex =>
      mantissaOk mant &&
        (let ex2 := dropSign ex
         !ex2.isEmpty && ex2.all Char.isDigit)

/-- Gender step of `ORUR01Transformer._build_patient` on an
already-built patient: structured PID-8 first, raw-line fallback, upper
case, `M`/`F` mapped and every other non-empty value `unknown`. -/
def oruGenderStep (base : PatientR) (pid : Option PidSeg)
    (pidLine : Option String) : PatientR :=
  let v0 : Option String := match pid with
    | some pd =>
      match pd.pid_8 with
      | some v => some (er7S (some v))
      | none => none
    | none => none
  let v1 := if v0.getD "" = "" then fieldCompFromEr7 pidLine 8 1 else v0
  let v := pyUpper (v1.getD "")
  if v ≠ "" then
    let gval := if v = "M" then "male"
      else if v = "F" then "female"
      else "unknown"
    { base with gender := some gval }
  else base

/-- Birth-date step of `ORUR01Transformer._build_patient`: the shared
date helper on structured PID-7, then the raw-line fallback whose
`strptime` call is not guarded locally — an invalid 8-digit prefix
raises there and the segment-level handler aborts the rest of the PID
parse (the gender step is skipped). -/
def oruBdStep (base : PatientR) (pid : Option PidSeg)
    (pidLine : Option String) : PatientR :=
  let bd0 : Option String := match pid with
    | some pd =>
      match pd.pid_7 with
      | some v => parseHl7Yyyymmdd v
      | none => none
    | none => none
  match bd0 with
  | some bd => oruGenderStep { base with birthDate := some bd } pid pidLine
  | none =>
    match fieldCompFromEr7 pidLine 7 1 with
    | some r =>
      if 8 ≤ sLen r ∧ isPyDigits (chTake r 8) then
        if validYmd8 (chTake r 8) then
          oruGenderStep { base with birthDate := some (dash8 (chTake r 8)) }
            pid pidLine
        else base
      else oruGenderStep base pid pidLine
    | none => oruGenderStep base pid pidLine

/-- Embedding of `ORUR01Transformer._build_patient`. -/
def buildPatientORU (pid : Option PidSeg) (pidLine : Option String) :
    PatientR :=
  if pid = none ∧ pidLine.getD "" = "" then emptyPatient
  else
    let val0 : Option String := match pid with
      | some pd => oruPid3Val pd
      | none => none
    let val := if val0.getD "" = "" then fieldCompFromEr7 pidLine 3 1
      else val0
    let idv : Option String := match val with
      | some s => if s ≠ "" then some s else none
      | none => none
    let famGiv0 := match pid with
      | some pd => oruPid5Val pd
      | none => (none, none)
    let famT0 : Bool := famGiv0.1.getD "" ≠ ""
    let givT0 : Bool := famGiv0.2.getD "" ≠ ""
    let famGiv : Option String × Option String :=
      if !(famT0 || givT0) then
        ((fieldCompFromEr7 pidLine 5 1).orElse (fun _ => famGiv0.1),
         (fieldCompFromEr7 pidLine 5 2).orElse (fun _ => famGiv0.2))
      else famGiv0
    let famT : Bool := famGiv.1.getD "" ≠ ""
    let givT : Bool := famGiv.2.getD "" ≠ ""
    let nameOpt : Option (List HumanNameR) :=
      if famT || givT then
        some [⟨if famT then famGiv.1 else none,
               if givT then some [famGiv.2.getD ""] else none⟩]
      else none
    let base := { emptyPatient with id := idv, name := nameOpt }
    oruBdStep base pid pidLine

/-- OBR-2/OBR-3 identifier value inside
`ORUR01Transformer._build_observation`: raw line first, then the
structured attribute's first repetition rendered by `_er7`. -/
def obrIdentVal (obr : Option ObrSeg) (obrLine : Option String)
    (fi : Int) (attr : ObrSeg → Option (FieldRep HVal)) : Option String :=
  match fieldCompFromEr7 obrLine fi 1 with
  | some v => some v
  | none =>
    match obr with
    | some ob =>
      match firstRepF (attr ob) with
      | some f => some (er7S (some f))
      | none => none
    | none => none

/-- OBX-3 code and text values inside
`ORUR01Transformer._build_observation`: raw line components first, then
the structured OBX-3 first repetition probed as `identifier or ce_1` /
`text or ce_2`. -/
def oruCodeVals (obx : Option ObxSeg) (obxLine : Option String) :
    Option String × Option String :=
  let cv0 := fieldCompFromEr7 obxLine 3 1
  let tv0 := fieldCompFromEr7 obxLine 3 2
  if cv0 = none ∧ tv0 = none then
    match obx with
    | some ox =>
      match firstRepF ox.obx_3 with
      | some ce =>
        let c1 := pyOrH ce.identifier ce.ce_1
        let c2 := pyOrH ce.text ce.ce_2
        (c1.map (fun x => er7S (some x)), c2.map (fun x => er7S (some x)))
      | none => (none, none)
    | none => (none, none)
  else (cv0, tv0)

/-- The always-present code wrapper of an observation: from the OBX-3
values when one is non-empty, else the explicit placeholder. -/
def oruCodeCc (obx : Option ObxSeg) (obxLine : Option String) :
    CodeableConceptR :=
  let cvtv := oruCodeVals obx obxLine
  if cvtv.1.getD "" ≠ "" || cvtv.2.getD "" ≠ "" then
    ⟨if cvtv.1.getD "" ≠ "" then some [⟨cvtv.1⟩] else none, cvtv.2⟩
  else ⟨none, some "Unspecified Observation"⟩

/-- Embedding of `ORUR01Transformer._build_observation` (the unused
`total_obx` parity parameter is dropped; the `NM` and non-`NM` value
branches of the source are textually identical, so the OBX-2 probe has
no observable effect and is folded away; the constructor-retry path
exists only for a monkeypatched test shim and is unreachable for the
total record constructor). -/
def buildObservationORU (obr : Option ObrSeg) (obx : Option ObxSeg)
    (patient : PatientR) (obrLine obxLine : Option String)
    (ordinal : Nat) : ObservationR :=
  let pidStr := match patient.id with
    | some s => if s = "" then "unknown" else s
    | none => "unknown"
  let subj : ReferenceR := ⟨"Patient/" ++ pidStr⟩
  let v2 := obrIdentVal obr obrLine 2 (fun ob => ob.obr_2)
  let v3 := obrIdentVal obr obrLine 3 (fun ob => ob.obr_3)
  let identList : List IdentifierR :=
    (if v2.getD "" ≠ "" then [(⟨v2⟩ : IdentifierR)] else []) ++
    (if v3.getD "" ≠ "" then [(⟨v3⟩ : IdentifierR)] else [])
  let identifier : Option (List IdentifierR) :=
    if identList.isEmpty then none else some identList
  let codeCc : CodeableConceptR := oruCodeCc obx obxLine
  let effective : Option String :=
    match fieldCompFromEr7 obrLine 7 1 with
    | some d =>
      if 8 ≤ sLen d ∧ isPyDigits (chTake d 8) then
        if 14 ≤ sLen d ∧ isPyDigits (chTake d 14) then
          if validYmdHms14 (chTake d 14) then some (isoInstant14 (chTake d 14))
          else none
        else
          if validYmd8 (chTake d 8) then some (isoMidnight8 d) else none
      else none
    | none => none
  let v5 : Option String :=
    match fieldCompFromEr7 obxLine 5 1 with
    | some v => some v
    | none =>
      match obx with
      | some ox => (firstRepF ox.obx_5).map (fun f => er7S (some f))
      | none => none
  let u6a := match fieldCompFromEr7 obxLine 6 2 with
    | some u => some u
    | none => fieldCompFromEr7 obxLine 6 1
  let u6 : Option String :=
    if u6a.getD "" ≠ "" then u6a
    else
      match obx with
      | some ox =>
        match firstRepF ox.obx_6 with
        | some ce =>
          match pyOrH (pyOrH (pyOrH ce.text ce.ce_2) ce.identifier) ce.ce_1
          with
          | some x => some (er7S (some x))
          | none => u6a
        | none => u6a
      | none => u6a
  let vqvs : Option QuantityR × Option String :=
    match v5 with
    | some s =>
      let v5s := pyStrip s
      if isPyDecimal v5s then
        (some ⟨v5s, if u6.getD "" ≠ "" then u6 else none⟩, none)
      else (none, if v5s = "" then none else some v5s)
    | none => (none, none)
  { id := some ("obs-" ++ pidStr ++ "-" ++ toString ordinal)
    status := "final"
    code := codeCc
    subject := subj
    effectiveDateTime := effective
    identifier := identifier
    valueQuantity := vqvs.1
    valueString := vqvs.2 }

/-- The ORU^R01 message as read by `transform`: its raw ER7 rendering
(`none` models a raising `to_er7`), the structured segments the locator
resolves, and the structured OBX nodes the gather loops collect, in
order. The gather only enriches observation values; the observation
count is driven by the raw lines alone. -/
structure OruMessage where
  er7 : Option String
  pidSeg : Option PidSeg
  obrSeg : Option ObrSeg
  obxSegs : List ObxSeg

/-- CR/CRLF/LF normalization used before splitting the rendering into
lines: the sequential replacements of CRLF and then CR by LF amount to
this single pass. -/
def normNl : List Char → List Char
  | [] => []
  | '\r' :: '\n' :: rest => '\n' :: normNl rest
  | '\r' :: rest => '\n' :: normNl rest
  | c :: rest => c :: normNl rest

/-- String-level wrapper of `normNl`. -/
def normNewlines (s : String) : String := String.mk (normNl s.data)

/-- The raw `OBX|` lines of the message rendering, via `_er7` (which
strips the whole rendering and maps a raising `to_er7` to the empty
string). -/
def obxLinesOf (msg : OruMessage) : List String :=
  let sAll := match msg.er7 with
    | none => ""
    | some s => pyStrip s
  if sAll = "" then []
  else (pySplit '\n' (normNewlines sAll)).filter
    (fun l => pyStartsWith l "OBX|")

/-- Embedding of `_first_segment_line` of `oru_r01.py`: first line of the
unstripped rendering starting with `seg|`. -/
def firstSegmentLineORU (msg : OruMessage) (seg : String) : Option String :=
  let s := msg.er7.getD ""
  if s = "" then none
  else (pySplit '\n' (normNewlines s)).find?
    (fun l => pyStartsWith l (seg ++ "|"))

/-- Embedding of `ORUR01Transformer.transform`: the patient, then — only
when raw `OBX|` lines exist — one observation per raw line, pairing each
with the structured node of the same index when one exists. -/
def oruTransform (msg : OruMessage) : List FhirResource :=
  let obxLines := obxLinesOf msg
  let pidLine := firstSegmentLineORU msg "PID"
  let obrLine := firstSegmentLineORU msg "OBR"
  let patient := buildPatientORU msg.pidSeg pidLine
  if obxLines.isEmpty then [.patient patient]
  else
    let observations := (List.range obxLines.length).map (fun idx =>
      buildObservationORU msg.obrSeg (msg.obxSegs.get? idx) patient
        obrLine (obxLines.get? idx) (idx + 1))
    FhirResource.patient patient :: observations.map FhirResource.observation

/-! ### `applies` per transformer

The MSH-9 read is modelled as `Option HVal`: `none` is a raising access
to `msg.MSH`/`msh_9` (each `applies` catches it and returns false — for
ADT^A03 the caught class is `AttributeError`, the error hl7apy's
attribute probing produces), `some v` the element obtained, whose
rendering may itself raise (`er7v = none`). -/

/-- Embedding of `ADTA01Transformer.applies`: `_get_trigger` yields the
raw rendering or `None` on a raise, compared for exact textual equality
with `ADT^A01`. -/
def adtA01Applies (msh9 : Option HVal) : Bool :=
  match msh9 with
  | none => false
  | some v =>
    match v.er7v with
    | some s => s = "ADT^A01"
    | none => false

/-- Embedding of `ADTA03Transformer.applies`: exact textual equality
with `ADT^A03`, attribute errors yielding false. -/
def adtA03Applies (msh9 : Option HVal) : Bool :=
  match msh9 with
  | none => false
  | some v =>
    match v.er7v with
    | some s => s = "ADT^A03"
    | none => false

/-- Embedding of `ADTA08Transformer.applies`: exact textual equality
with `ADT^A08`, any read error yielding false. -/
def adtA08Applies (msh9 : Option HVal) : Bool :=
  match msh9 with
  | none => false
  | some v =>
    match v.er7v with
    | some s => s = "ADT^A08"
    | none => false

/-- Embedding of `ORMO01Transformer.applies`: exact textual equality
with `ORM^O01`, any read error yielding false. -/
def ormO01Applies (msh9 : Option HVal) : Bool :=
  match msh9 with
  | none => false
  | some v =>
    match v.er7v with
    | some s => s = "ORM^O01"
    | none => false

/-- Embedding of `ORUR01Transformer.applies`: uppercase the stripped
rendering, accept when the first two caret components equal `ORU^R01`
or the uppercased value starts with `ORU^R01`. -/
def oruR01Applies (msh9 : Option HVal) : Bool :=
  let raw := pyUpper (er7S msh9)
  if raw = "" then false
  else
    let comps := pySplit '^' raw
    match comps with
    | c0 :: c1 :: _ =>
      if c0 ++ "^" ++ c1 = "ORU^R01" then true
      else pyStartsWith raw "ORU^R01"
    | _ => pyStartsWith raw "ORU^R01"

/-! ### Transformer registry (`registry.py`) -/

/-- The five transformer classes. -/
inductive TransformerTag where
  | adtA01
  | adtA03
  | adtA08
  | ormO01
  | oruR01
deriving Repr, DecidableEq

/-- A class handed to `register`: its identity, whether it is a class at
all, and whether it exposes callable `applies` and `transform`
operations. -/
structure TransformerClass where
  tag : TransformerTag
  isClass : Bool
  hasApplies : Bool
  hasTransform : Bool
deriving Repr, DecidableEq

/-- Registration errors: `valueError` for a duplicate event,
`typeError` for a non-class or a class missing the protocol. -/
inductive RegError where
  | valueError
  | typeError
deriving Repr, DecidableEq

/-- The registry table, in insertion order (a Python dict). -/
abbrev Registry : Type := List (String × TransformerClass)

/-- Embedding of `register`'s decorator body: error on a duplicate event,
then on a non-class, then on a missing `applies`/`transform`; otherwise
bind the event. The error propagates to the caller (an `Except`). -/
def register (event : String) (cls : TransformerClass) (reg : Registry) :
    Except RegError Registry :=
  if (reg.lookup event).isSome then .error .valueError
  else if !cls.isClass then .error .typeError
  else if !(cls.hasApplies && cls.hasTransform) then .error .typeError
  else .ok (reg ++ [(event, cls)])

/-- Run a sequence of registrations, propagating the first error. -/
def registerSeq (l : List (String × TransformerClass)) (reg : Registry) :
    Except RegError Registry :=
  match l with
  | [] => .ok reg
  | (e, c) :: rest =>
    match register e c reg with
    | .ok r => registerSeq rest r
    | .error err => .error err

/-- `ADTA01Transformer` as a registered class. -/
def clsA01 : TransformerClass := ⟨.adtA01, true, true, true⟩

/-- `ADTA03Transformer` as a registered class. -/
def clsA03 : TransformerClass := ⟨.adtA03, true, true, true⟩

/-- `ADTA08Transformer` as a registered class. -/
def clsA08 : TransformerClass := ⟨.adtA08, true, true, true⟩

/-- `ORMO01Transformer` as a registered class. -/
def clsORM : TransformerClass := ⟨.ormO01, true, true, true⟩

/-- `ORUR01Transformer` as a registered class. -/
def clsORU : TransformerClass := ⟨.oruR01, true, true, true⟩

/-- The registrations `load_all` performs, in module-discovery
(alphabetical) order. -/
def discoveryOrder : List (String × TransformerClass) :=
  [("ADT^A01", clsA01), ("ADT^A03", clsA03), ("ADT^A08", clsA08),
   ("ORM^O01", clsORM), ("ORU^R01", clsORU)]

/-- The populated process-wide registry. -/
def theRegistry : Registry := discoveryOrder

/-- The MSH-9 header read as `get_transformer` performs it: the
attribute access may raise, the value read may raise, and the raw value
may be `None`, bytes or text. -/
inductive Msh9Read where
  | accessRaises
  | readRaises
  | rawNone
  | rawBytes (bs : List Nat)
  | rawText (s : String)
deriving Repr, DecidableEq

/-- `raw.decode("ascii", "ignore")`: drop non-ASCII bytes. -/
def decodeAsciiIgnore (bs : List Nat) : String :=
  String.mk ((bs.filter (fun b => b < 128)).map Char.ofNat)

/-- The truncation `get_transformer` applies before lookup: when the
value contains a caret, keep only the first two components. -/
def truncateTrigger (m : String) : String :=
  match pySplit '^' m with
  | p0 :: p1 :: _ => p0 ++ "^" ++ p1
  | _ => m

/-- Registry lookup plus instantiation: the bound transformer's tag. -/
def registryFind (m : String) : Option TransformerTag :=
  (theRegistry.lookup m).map (fun c => c.tag)

/-- Embedding of `get_transformer`: `None` on any header read failure,
tolerant normalization of bytes/text with stripping, truncation of an
extended trigger, then registry lookup. -/
def getTransformer (r : Msh9Read) : Option TransformerTag :=
  match r with
  | .accessRaises => none
  | .readRaises => none
  | .rawNone => none
  | .rawBytes bs => registryFind (truncateTrigger (pyStrip (decodeAsciiIgnore bs)))
  | .rawText s => registryFind (truncateTrigger (pyStrip s))

/-! ### Segment locator (`_find_first` of `oru_r01.py` / `orm_o01.py`)

The structural tree is `HNode`: `name` is the node's `name` attribute
(`none` for missing), `truthy` its `_is_truthy_container` verdict (an
hl7apy element list is falsy when empty), `attrs` the named-attribute
table probed by `getattr(x, seg_name, None)`, and `children` the
`children` attribute. Every raising access in the source is inside a
`try/except` whose handler behaves exactly like the corresponding
absent/`None` case, so raising accesses are modelled by those cases. -/
inductive HNode : Type where
  | mk : Option String → Bool → List (String × HNode) → List HNode → HNode

/-- The node's `name` attribute. -/
def HNode.nameOf : HNode → Option String
  | .mk n _ _ _ => n

/-- The node's `_is_truthy_container` verdict. -/
def HNode.truthy : HNode → Bool
  | .mk _ t _ _ => t

/-- The node's named-attribute table. -/
def HNode.attrs : HNode → List (String × HNode)
  | .mk _ _ a _ => a

/-- The node's `children` attribute. -/
def HNode.childrenOf : HNode → List HNode
  | .mk _ _ _ c => c

/-- `getattr(x, seg, None)` over the attribute table. -/
def lookupAttr (x : HNode) (seg : String) : Option HNode :=
  x.attrs.lookup seg

/-- Direct-children scan of the ORU locator: first child with the right
name that is a truthy container. -/
def scanORU (children : List HNode) (seg : String) : Option HNode :=
  children.find? (fun ch => ch.nameOf == some seg && ch.truthy)

mutual

/-- Embedding of `_find_first` of `oru_r01.py`: attribute shortcut
guarded by truthiness, then a direct-children scan guarded by name and
truthiness, then recursion into children that expose a nonempty
`children`, keeping only truthy results; empty containers are never
returned. -/
def findFirstORU (x : HNode) (seg : String) : Option HNode :=
  match lookupAttr x seg with
  | some cand =>
    if cand.truthy then some cand
    else
      match scanORU (HNode.childrenOf x) seg with
      | some ch => some ch
      | none => findFirstORURec (HNode.childrenOf x) seg
  | none =>
    match scanORU (HNode.childrenOf x) seg with
    | some ch => some ch
    | none => findFirstORURec (HNode.childrenOf x) seg
termination_by sizeOf x
decreasing_by
  all_goals simp_wf
  all_goals
    cases x with
    | mk n t a c => simp [HNode.childrenOf]

/-- Recursive stage of the ORU locator. -/
def findFirstORURec : List HNode → String → Option HNode
  | [], _ => none
  | ch :: rest, seg =>
    if !(HNode.childrenOf ch).isEmpty then
      match findFirstORU ch seg with
      | some f =>
        if f.truthy then some f else findFirstORURec rest seg
      | none => findFirstORURec rest seg
    else findFirstORURec rest seg
termination_by l _ => sizeOf l
decreasing_by
  all_goals simp_wf
  all_goals omega

end

mutual

/-- Embedding of `_find_first` of `orm_o01.py`: attribute shortcut with
no truthiness guard (any non-`None` candidate is returned, empty or
not), then a direct-children name scan, then recursion. -/
def findFirstORM (x : HNode) (seg : String) : Option HNode :=
  match lookupAttr x seg with
  | some cand => some cand
  | none =>
    match (HNode.childrenOf x).find? (fun ch => ch.nameOf == some seg) with
    | some ch => some ch
    | none => findFirstORMRec (HNode.childrenOf x) seg
termination_by sizeOf x
decreasing_by
  all_goals simp_wf
  all_goals
    cases x with
    | mk n t a c => simp [HNode.childrenOf]

/-- Recursive stage of the ORM locator. -/
def findFirstORMRec : List HNode → String → Option HNode
  | [], _ => none
  | ch :: rest, seg =>
    if !(HNode.childrenOf ch).isEmpty then
      match findFirstORM ch seg with
      | some f => some f
      | none => findFirstORMRec rest seg
    else findFirstORMRec rest seg
termination_by l _ => sizeOf l
decreasing_by
  all_goals simp_wf
  all_goals omega

end

/-! ### Concrete inputs used by witnesses -/

/-- A small ORU^R01 message whose rendering carries one PID and one OBX
line, with no structured segments resolved. -/
def c3msg : OruMessage :=
  { er7 := some "PID|1||P1||Doe^John\rOBX|1|NM|GLU^Glucose||105|mg/dL"
    pidSeg := none
    obrSeg := none
    obxSegs := [] }

/-- A structural node standing for an empty repetition container: named
`PID` but falsy. -/
def c7emptySeg : HNode := .mk (some "PID") false [] []

/-- A tree whose only `PID` match is the empty container, reachable via
the attribute shortcut. -/
def c7root : HNode := .mk none true [("PID", c7emptySeg)] []

/-! ## Claim theorems -/

set_option maxHeartbeats 1000000 in
/-- Claim C4: for every combination of a null raw line, any field index,
and any component index (including zero, negative, and out-of-range
values), the raw-text field extraction never raises (it is a total
function whose out-of-range cases are all handled explicitly) and
returns absence; when the line exists it splits on `|`, treats index 0
as the segment name so real fields start at 1, splits the selected
field on `^`, and returns the selected component trimmed only if
non-empty. -/
theorem c4_extract_contract :
    (∀ fi ci : Int, fieldCompFromEr7 none fi ci = none) ∧
    (∀ (line : String) (fi ci : Int), fi < 1 →
      fieldCompFromEr7 (some line) fi ci = none) ∧
    (∀ (line : String) (fi ci : Int), ci < 1 →
      fieldCompFromEr7 (some line) fi ci = none) ∧
    (∀ (line : String) (fi ci : Int),
      ((pySplit '|' (pyStrip line)).length : Int) ≤ fi →
      fieldCompFromEr7 (some line) fi ci = none) ∧
    (∀ (line : String) (fi ci : Int) (v : String),
      fieldCompFromEr7 (some line) fi ci = some v →
      v ≠ "" ∧ 1 ≤ fi ∧ fi < ((pySplit '|' (pyStrip line)).length : Int) ∧
      1 ≤ ci ∧
      (pySplit '|' (pyStrip line)).getD fi.toNat "" ≠ "" ∧
      ci ≤ ((pySplit '^'
        ((pySplit '|' (pyStrip line)).getD fi.toNat "")).length : Int) ∧
      v = pyStrip ((pySplit '^'
        ((pySplit '|' (pyStrip line)).getD fi.toNat "")).getD
          (ci.toNat - 1) "")) := by
  refine ⟨fun _ _ => rfl, ?_, ?_, ?_, ?_⟩
  · intro line fi ci h
    simp only [fieldCompFromEr7]
    split_ifs <;> first | rfl | tauto
  · intro line fi ci h
    simp only [fieldCompFromEr7]
    split_ifs <;> first | rfl | tauto
  · intro line fi ci h
    simp only [fieldCompFromEr7]
    split_ifs <;> first | rfl | tauto
  · intro line fi ci v h
    simp only [fieldCompFromEr7] at h
    by_cases h1 : line = ""
    · rw [if_pos h1] at h; exact Option.noConfusion h
    rw [if_neg h1] at h
    by_cases h2 : fi < 1 ∨ ((pySplit '|' (pyStrip line)).length : Int) ≤ fi
    · rw [if_pos h2] at h; exact Option.noConfusion h
    rw [if_neg h2] at h
    by_cases hf : (pySplit '|' (pyStrip line)).getD fi.toNat "" = ""
    · rw [if_pos hf] at h
      have hc : ci < 1 ∨ ((([] : List String).length : Int) < ci) := by
        simp only [List.length_nil, Int.ofNat_zero]
        omega
      rw [if_pos hc] at h
      exact Option.noConfusion h
    rw [if_neg hf] at h
    by_cases h3 : ci < 1 ∨
        ((pySplit '^'
          ((pySplit '|' (pyStrip line)).getD fi.toNat "")).length : Int) < ci
    · rw [if_pos h3] at h; exact Option.noConfusion h
    rw [if_neg h3] at h
    by_cases h4 : pyStrip ((pySplit '^'
        ((pySplit '|' (pyStrip line)).getD fi.toNat "")).getD
          (ci.toNat - 1) "") = ""
    · rw [if_pos h4] at h; exact Option.noConfusion h
    rw [if_neg h4] at h
    have hv := (Option.some.inj h).symm
    push_neg at h2 h3
    refine ⟨?_, by omega, by omega, by omega, hf, by omega, hv⟩
    rw [hv]
    exact h4

/-- Witness for C4: concrete out-of-range and null-line cases through
the theorem itself. -/
theorem c4_extract_contract_witness :
    fieldCompFromEr7 (some "OBX|1|NM|GLU^Glucose") 0 5 = none ∧
    fieldCompFromEr7 (some "OBX|1|NM|GLU^Glucose") 3 (-1) = none ∧
    fieldCompFromEr7 (some "OBX|1|NM|GLU^Glucose") 99 1 = none ∧
    fieldCompFromEr7 none 2 2 = none :=
  ⟨c4_extract_contract.2.1 "OBX|1|NM|GLU^Glucose" 0 5 (by decide),
   c4_extract_contract.2.2.1 "OBX|1|NM|GLU^Glucose" 3 (-1) (by decide),
   c4_extract_contract.2.2.2.1 "OBX|1|NM|GLU^Glucose" 99 1 (by decide),
   c4_extract_contract.1 2 2⟩

/-- Uppercasing preserves emptiness. -/
theorem pyUpper_eq_empty_iff (s : String) : pyUpper s = "" ↔ s = "" := by
  cases s with
  | mk l => cases l <;> simp [pyUpper, String.ext_iff]

/-- Counterexample to claim C1: the claim maps the single-letter code `O`
to `other` in every message, but the ORU^R01 and ADT^A08 patient
builders map `O` (and `U`) to `unknown` — only `M` and `F` are mapped
there. -/
theorem c1_counterexample :
    (buildPatientORU (some ⟨none, none, none, some (hv "O")⟩) none).gender =
      some "unknown" ∧
    (buildPatientORU (some ⟨none, none, none, some (hv "O")⟩) none).gender ≠
      some "other" ∧
    (buildPatientA08 (some ⟨none, none, none, some (hv "O")⟩)).gender =
      some "unknown" := by
  refine ⟨by decide, by decide, by decide⟩

/-- Claim C1 as amended: the gender normalization differs per
transformer. ADT^A01 maps a value whose stripped uppercase form starts
with M/F/O/U to male/female/other/unknown (so a multi-letter value such
as `FOO` maps to `female`, not `unknown`), any other non-empty value to
`unknown`, and empty or absent stays absent. The ORU^R01 builder maps
only `M`/`F` to male/female, every other non-empty value — including
`O` and `U` — to `unknown`, with empty and absent staying absent. The
ADT^A08 builder maps a present sex field — even one that is empty or
whose rendering raises — to `unknown` unless it is exactly M/F, and
only an absent field stays absent. -/
theorem c1_amended_gender :
    (∀ pid : PidSeg, pid.pid_8 = some (hv "M") →
      pidGenderA01 pid = some "male") ∧
    (∀ pid : PidSeg, pid.pid_8 = some (hv "F") →
      pidGenderA01 pid = some "female") ∧
    (∀ pid : PidSeg, pid.pid_8 = some (hv "O") →
      pidGenderA01 pid = some "other") ∧
    (∀ pid : PidSeg, pid.pid_8 = some (hv "U") →
      pidGenderA01 pid = some "unknown") ∧
    (∀ pid : PidSeg, pid.pid_8 = some (hv "FOO") →
      pidGenderA01 pid = some "female") ∧
    (∀ (pid : PidSeg) (s : String), pid.pid_8 = some (hv s) →
      pyStrip s = s → s ≠ "" →
      pyStartsWith (pyUpper s) "M" = false →
      pyStartsWith (pyUpper s) "F" = false →
      pyStartsWith (pyUpper s) "O" = false →
      pyStartsWith (pyUpper s) "U" = false →
      pidGenderA01 pid = some "unknown") ∧
    (∀ pid : PidSeg, pid.pid_8 = none → pidGenderA01 pid = none) ∧
    (∀ pid : PidSeg, pid.pid_8 = some (hv "") → pidGenderA01 pid = none) ∧
    (∀ s : String, pyStrip s = s → s ≠ "" →
      (buildPatientORU (some ⟨none, none, none, some (hv s)⟩) none).gender =
        some (if pyUpper s = "M" then "male"
              else if pyUpper s = "F" then "female"
              else "unknown")) ∧
    ((buildPatientORU (some ⟨none, none, none, some (hv "")⟩) none).gender =
      none) ∧
    ((buildPatientORU (some ⟨none, none, none, none⟩) none).gender = none) ∧
    (∀ s : String, pyStrip s = s →
      (buildPatientA08 (some ⟨none, none, none, some (hv s)⟩)).gender =
        some (if pyUpper s = "M" then "male"
              else if pyUpper s = "F" then "female"
              else "unknown")) ∧
    (∀ t : Bool,
      (buildPatientA08 (some ⟨none, none, none, some ⟨none, t⟩⟩)).gender =
        some "unknown") ∧
    ((buildPatientA08 (some ⟨none, none, none, none⟩)).gender = none) := by
  refine ⟨?_, ?_, ?_, ?_, ?_, ?_, ?_, ?_, ?_, by decide, by decide, ?_,
    fun t => by cases t <;> decide, by decide⟩
  · intro pid h
    obtain ⟨p3, p5, p7, p8⟩ := pid
    cases h
    rfl
  · intro pid h
    obtain ⟨p3, p5, p7, p8⟩ := pid
    cases h
    rfl
  · intro pid h
    obtain ⟨p3, p5, p7, p8⟩ := pid
    cases h
    rfl
  · intro pid h
    obtain ⟨p3, p5, p7, p8⟩ := pid
    cases h
    rfl
  · intro pid h
    obtain ⟨p3, p5, p7, p8⟩ := pid
    cases h
    rfl
  · intro pid s h hstrip hne hm hf ho hu
    obtain ⟨p3, p5, p7, p8⟩ := pid
    cases h
    have hval : ¬ pyUpper s = "" := fun hh =>
      hne ((pyUpper_eq_empty_iff s).mp hh)
    simp [pidGenderA01, safeStr, hv, hstrip, hval, hm, hf, ho, hu]
  · intro pid h
    obtain ⟨p3, p5, p7, p8⟩ := pid
    cases h
    rfl
  · intro pid h
    obtain ⟨p3, p5, p7, p8⟩ := pid
    cases h
    rfl
  · intro s hstrip hne
    have hval : ¬ pyUpper s = "" := fun hh =>
      hne ((pyUpper_eq_empty_iff s).mp hh)
    simp [buildPatientORU, oruPid3Val, oruPid5Val, oruBdStep, oruGenderStep,
      fieldCompFromEr7, er7S, hv, hstrip, hne, hval, emptyPatient]
  · intro s hstrip
    simp [buildPatientA08, a08Name, a08BdGender, parseHl7Yyyymmdd, hv,
      hstrip, emptyPatient]

/-- Witness for C1's amended theorem at concrete inputs. -/
theorem c1_amended_gender_witness :
    pidGenderA01 ⟨none, none, none, some (hv "O")⟩ = some "other" ∧
    pidGenderA01 ⟨none, none, none, some (hv "X1")⟩ = some "unknown" ∧
    (buildPatientORU (some ⟨none, none, none, some (hv "U")⟩) none).gender =
      some (if pyUpper "U" = "M" then "male"
            else if pyUpper "U" = "F" then "female"
            else "unknown") ∧
    (buildPatientA08 (some ⟨none, none, none, some (hv "f")⟩)).gender =
      some (if pyUpper "f" = "M" then "male"
            else if pyUpper "f" = "F" then "female"
            else "unknown") :=
  ⟨c1_amended_gender.2.2.1 ⟨none, none, none, some (hv "O")⟩ rfl,
   c1_amended_gender.2.2.2.2.2.1 ⟨none, none, none, some (hv "X1")⟩ "X1" rfl
     (by decide) (by decide) (by decide) (by decide) (by decide) (by decide),
   c1_amended_gender.2.2.2.2.2.2.2.2.1 "U" (by decide) (by decide),
   c1_amended_gender.2.2.2.2.2.2.2.2.2.2.2.1 "f" (by decide)⟩

/-- Counterexample to claim C2: no single date normalizer implements the
claimed contract. The shared `_parse_hl7_yyyymmdd` (ORU/ORM/A08) rejects
an exactly-6-digit `YYYYMM` value instead of producing `YYYY-MM`, and the
ADT^A01 birth-date normalizer rejects a 14-digit `YYYYMMDDhhmmss` value
instead of using its 8-digit date prefix. -/
theorem c2_counterexample :
    parseHl7Yyyymmdd (hv "197001") = none ∧
    parseHl7Yyyymmdd (hv "197001") ≠ some "1970-01" ∧
    pidBirthdateA01 ⟨none, none, some (hv "19700101123000"), none⟩ = none ∧
    pidBirthdateA01 ⟨none, none, some (hv "19700101123000"), none⟩ ≠
      some "1970-01-01" := by
  refine ⟨by decide, by decide, by decide, by decide⟩

/-- Claim C2 as amended: the three distinct date normalizers behave as
follows. The ADT^A01 birth-date helper accepts exactly 8-, 6- and
4-digit all-digit values (after strip), producing `YYYY-MM-DD`,
`YYYY-MM` and `YYYY` textually without calendar validation, and rejects
every other shape, 14-digit timestamps included. The shared
`_parse_hl7_yyyymmdd` helper (A08/ORM/ORU) accepts any value whose
stripped form is at least 8 characters with a valid-calendar 8-digit
prefix — ignoring any trailing time component — and rejects everything
else, exactly-6- and 4-digit values included. The ORU observation
timestamp accepts a valid 14-digit prefix as a UTC instant and a valid
8-digit date prefix (shorter than 14 digits) as midnight UTC.
Re-normalizing an already-normalized `YYYY-MM-DD` value yields absence,
not the same value; only the bare `YYYY` form is a fixed point of the
A01 normalizer. -/
theorem c2_amended_dates :
    (∀ s : String, pyStrip s = s → sLen s < 8 →
      parseHl7Yyyymmdd (hv s) = none) ∧
    (∀ s : String, pyStrip s = s → 8 ≤ sLen s → validYmd8 (chTake s 8) →
      parseHl7Yyyymmdd (hv s) = some (dash8 (chTake s 8))) ∧
    (∀ s : String, pyStrip s = s → validYmd8 (chTake s 8) = false →
      parseHl7Yyyymmdd (hv s) = none) ∧
    (∀ t : Bool, parseHl7Yyyymmdd ⟨none, t⟩ = none) ∧
    (∀ (pid : PidSeg) (s : String), pid.pid_7 = some (hv s) →
      pyStrip s = s → isPyDigits s →
      pidBirthdateA01 pid =
        (if sLen s = 8 then some (dash8 s)
         else if sLen s = 6 then some (dash6 s)
         else if sLen s = 4 then some s
         else none)) ∧
    (∀ (pid : PidSeg) (s : String), pid.pid_7 = some (hv s) →
      isPyDigits (pyStrip s) = false → pidBirthdateA01 pid = none) ∧
    (∀ pid : PidSeg, pid.pid_7 = none → pidBirthdateA01 pid = none) ∧
    (∀ (obrLine : Option String) (d : String),
      fieldCompFromEr7 obrLine 7 1 = some d →
      14 ≤ sLen d → isPyDigits (chTake d 8) → isPyDigits (chTake d 14) →
      validYmdHms14 (chTake d 14) →
      (buildObservationORU none none emptyPatient obrLine none
        1).effectiveDateTime = some (isoInstant14 (chTake d 14))) ∧
    (∀ (obrLine : Option String) (d : String),
      fieldCompFromEr7 obrLine 7 1 = some d →
      8 ≤ sLen d → sLen d < 14 → isPyDigits (chTake d 8) →
      validYmd8 (chTake d 8) →
      (buildObservationORU none none emptyPatient obrLine none
        1).effectiveDateTime = some (isoMidnight8 d)) ∧
    (∀ obrLine : Option String, fieldCompFromEr7 obrLine 7 1 = none →
      (buildObservationORU none none emptyPatient obrLine none
        1).effectiveDateTime = none) ∧
    (parseHl7Yyyymmdd (hv "1970-01-01") = none ∧
     pidBirthdateA01 ⟨none, none, some (hv "1970-01-01"), none⟩ = none ∧
     pidBirthdateA01 ⟨none, none, some (hv "1970"), none⟩ = some "1970") := by
  refine ⟨?_, ?_, ?_, fun t => rfl, ?_, ?_, ?_, ?_, ?_, ?_,
    by decide, by decide, by decide⟩
  · intro s h1 h2
    simp only [parseHl7Yyyymmdd, hv, h1]
    rw [if_neg (fun hc => (by omega : ¬ 8 ≤ sLen s) hc.1)]
  · intro s h1 h2 h3
    simp only [parseHl7Yyyymmdd, hv, h1]
    rw [if_pos ⟨h2, h3⟩]
  · intro s h1 h2
    simp only [parseHl7Yyyymmdd, hv, h1]
    rw [if_neg (fun hc => by rw [h2] at hc; exact Bool.noConfusion hc.2)]
  · intro pid s h hstrip hdig
    obtain ⟨p3, p5, p7, p8⟩ := pid
    cases h
    simp only [pidBirthdateA01, hv, safeStr, Option.getD_some, hstrip, hdig,
      if_true]
  · intro pid s h hdig
    obtain ⟨p3, p5, p7, p8⟩ := pid
    cases h
    simp [pidBirthdateA01, hv, safeStr, hdig]
  · intro pid h
    obtain ⟨p3, p5, p7, p8⟩ := pid
    cases h
    rfl
  · intro obrLine d h h14 hd8 hd14 hvalid
    simp only [buildObservationORU, h]
    rw [if_pos ⟨by omega, hd8⟩, if_pos ⟨h14, hd14⟩, if_pos hvalid]
  · intro obrLine d h h8 h14 hd8 hvalid
    simp only [buildObservationORU, h]
    rw [if_pos ⟨h8, hd8⟩,
      if_neg (fun hc => (by omega : ¬ 14 ≤ sLen d) hc.1),
      if_pos hvalid]
  · intro obrLine h
    simp only [buildObservationORU, h]

/-- Witness for C2's amended theorem at concrete inputs. -/
theorem c2_amended_dates_witness :
    parseHl7Yyyymmdd (hv "1970") = none ∧
    parseHl7Yyyymmdd (hv "19700101123000") =
      some (dash8 (chTake "19700101123000" 8)) ∧
    pidBirthdateA01 ⟨none, none, some (hv "197001"), none⟩ =
      (if sLen "197001" = 8 then some (dash8 "197001")
       else if sLen "197001" = 6 then some (dash6 "197001")
       else if sLen "197001" = 4 then some "197001"
       else none) ∧
    (buildObservationORU none none emptyPatient
      (some "OBR|1||||||20200102030405") none 1).effectiveDateTime =
      some (isoInstant14 (chTake "20200102030405" 14)) ∧
    (buildObservationORU none none emptyPatient
      (some "OBR|1||||||20200102") none 1).effectiveDateTime =
      some (isoMidnight8 "20200102") ∧
    (buildObservationORU none none emptyPatient none none
      1).effectiveDateTime = none :=
  ⟨c2_amended_dates.1 "1970" (by decide) (by decide),
   c2_amended_dates.2.1 "19700101123000" (by decide) (by decide) (by decide),
   c2_amended_dates.2.2.2.2.1 ⟨none, none, some (hv "197001"), none⟩ "197001"
     rfl (by decide) (by decide),
   c2_amended_dates.2.2.2.2.2.2.2.1 (some "OBR|1||||||20200102030405")
     "20200102030405" (by decide) (by decide) (by decide) (by decide)
     (by decide),
   c2_amended_dates.2.2.2.2.2.2.2.2.1 (some "OBR|1||||||20200102")
     "20200102" (by decide) (by decide) (by decide) (by decide) (by decide),
   c2_amended_dates.2.2.2.2.2.2.2.2.2.1 none rfl⟩

/-- Claim C3: for every ORU^R01 message, `transform` returns the patient
record first followed by exactly one observation per raw `OBX|` line of
the rendered text — zero raw lines yields the patient only, and the
count is independent of the structured OBX nodes (which are a free
component of the message model here); each observation gets the
deterministic id `obs-{patient id or unknown}-{1-based ordinal}`. -/
theorem c3_oru_counts_and_ids :
    ∀ msg : OruMessage,
      (oruTransform msg).length = 1 + (obxLinesOf msg).length ∧
      (oruTransform msg).head? = some (.patient
        (buildPatientORU msg.pidSeg (firstSegmentLineORU msg "PID"))) ∧
      (obxLinesOf msg = [] → oruTransform msg = [.patient
        (buildPatientORU msg.pidSeg (firstSegmentLineORU msg "PID"))]) ∧
      (∀ i : Nat, i < (obxLinesOf msg).length →
        ∃ o : ObservationR,
          (oruTransform msg).get? (i + 1) = some (.observation o) ∧
          o.id = some ("obs-" ++
            (match (buildPatientORU msg.pidSeg
                (firstSegmentLineORU msg "PID")).id with
             | some s => if s = "" then "unknown" else s
             | none => "unknown") ++ "-" ++ toString (i + 1))) := by
  intro msg
  by_cases he : (obxLinesOf msg).isEmpty
  · have h0 : obxLinesOf msg = [] := List.isEmpty_iff.mp he
    refine ⟨by simp [oruTransform, h0], by simp [oruTransform, h0],
      fun _ => by simp [oruTransform, h0], fun i hi => ?_⟩
    rw [h0] at hi
    simp at hi
  · have hrs : oruTransform msg =
        FhirResource.patient
          (buildPatientORU msg.pidSeg (firstSegmentLineORU msg "PID")) ::
        ((List.range (obxLinesOf msg).length).map (fun idx =>
          buildObservationORU msg.obrSeg (msg.obxSegs.get? idx)
            (buildPatientORU msg.pidSeg (firstSegmentLineORU msg "PID"))
            (firstSegmentLineORU msg "OBR") ((obxLinesOf msg).get? idx)
            (idx + 1))).map FhirResource.observation := by
      simp [oruTransform, he]
    have hne : obxLinesOf msg ≠ [] := fun hh => he (by simp [hh])
    rw [hrs]
    refine ⟨by simp [List.length_map, List.length_range]; omega, rfl,
      fun hh => absurd hh hne, fun i hi => ?_⟩
    refine ⟨buildObservationORU msg.obrSeg (msg.obxSegs.get? i)
      (buildPatientORU msg.pidSeg (firstSegmentLineORU msg "PID"))
      (firstSegmentLineORU msg "OBR") ((obxLinesOf msg).get? i) (i + 1),
      ?_, ?_⟩
    · rw [List.get?_cons_succ, List.get?_map, List.get?_map,
        List.get?_range hi]
      rfl
    · simp only [buildObservationORU]

/-- Witness for C3 at a concrete one-OBX message. -/
theorem c3_oru_counts_and_ids_witness :
    (oruTransform c3msg).length = 1 + (obxLinesOf c3msg).length ∧
    (∃ o : ObservationR,
      (oruTransform c3msg).get? (0 + 1) = some (.observation o) ∧
      o.id = some ("obs-" ++
        (match (buildPatientORU c3msg.pidSeg
            (firstSegmentLineORU c3msg "PID")).id with
         | some s => if s = "" then "unknown" else s
         | none => "unknown") ++ "-" ++ toString (0 + 1))) :=
  ⟨(c3_oru_counts_and_ids c3msg).1,
   (c3_oru_counts_and_ids c3msg).2.2.2 0 (by decide)⟩

/-- Claim C5: registry lookup by message reads the header trigger field,
tolerates bytes versus text and surrounding whitespace, truncates an
extended three-component trigger to its first two components before
lookup, and returns absent — never raising (it is total, with every
header-read failure constructor mapped to `none`) — on any header read
failure or unregistered code; for every registered code, lookup on a
message carrying that exact code returns an instance of the bound
transformer. -/
theorem c5_registry_lookup :
    getTransformer .accessRaises = none ∧
    getTransformer .readRaises = none ∧
    getTransformer .rawNone = none ∧
    (∀ p ∈ theRegistry, getTransformer (.rawText p.1) = some p.2.tag) ∧
    (∀ p ∈ theRegistry,
      getTransformer (.rawText ("  " ++ p.1 ++ " ")) = some p.2.tag) ∧
    (∀ p ∈ theRegistry,
      getTransformer (.rawBytes (p.1.data.map Char.toNat)) = some p.2.tag) ∧
    getTransformer (.rawText "ORU^R01^ORU_R01") = some .oruR01 ∧
    (∀ s : String,
      getTransformer (.rawText s) =
        registryFind (truncateTrigger (pyStrip s))) ∧
    getTransformer (.rawText "XXX^Y99") = none ∧
    registerSeq discoveryOrder [] = .ok theRegistry := by
  refine ⟨rfl, rfl, rfl, by decide, by decide, by decide, by decide,
    fun s => rfl, by decide, rfl⟩

/-- Witness for C5 at two registered codes. -/
theorem c5_registry_lookup_witness :
    getTransformer (.rawText "ADT^A01") = some TransformerTag.adtA01 ∧
    getTransformer (.rawText ("  " ++ "ORU^R01" ++ " ")) =
      some TransformerTag.oruR01 :=
  ⟨c5_registry_lookup.2.2.2.1 ("ADT^A01", clsA01) (by decide),
   c5_registry_lookup.2.2.2.2.1 ("ORU^R01", clsORU) (by decide)⟩

/-- A successful association lookup is the same as key membership. -/
theorem lookup_isSome_iff_mem_keys :
    ∀ (l : Registry) (e : String),
      (l.lookup e).isSome ↔ e ∈ l.map Prod.fst := by
  intro l e
  induction l with
  | nil => simp [List.lookup]
  | cons p rest ih =>
    simp only [List.lookup, List.map_cons, List.mem_cons]
    by_cases he : e == p.1
    · have heq : e = p.1 := eq_of_beq he
      simp [he, heq]
    · have hef : (e == p.1) = false := by simpa using he
      have hne : e ≠ p.1 := fun hh => by simp [hh] at hef
      simp [hef, hne, ih]

/-- Claim C8: `register` errors on a duplicate event code and on a class
missing `applies` or `transform`; these errors propagate to the caller
(the result is an `Except` the caller must inspect); and after any
sequence of successful registrations starting from a table with
pairwise-distinct codes the bound event codes stay pairwise distinct, so
each code is bound to at most one transformer — in particular this holds
of the populated registry. -/
theorem c8_register_contract :
    (∀ (reg : Registry) (event : String) (cls : TransformerClass),
      (reg.lookup event).isSome →
      register event cls reg = .error .valueError) ∧
    (∀ (reg : Registry) (event : String) (cls : TransformerClass),
      (reg.lookup event).isSome = false → cls.isClass = true →
      (cls.hasApplies = false ∨ cls.hasTransform = false) →
      register event cls reg = .error .typeError) ∧
    (∀ (l : List (String × TransformerClass)) (reg reg' : Registry),
      registerSeq l reg = .ok reg' →
      (reg.map Prod.fst).Nodup → (reg'.map Prod.fst).Nodup) ∧
    (theRegistry.map Prod.fst).Nodup := by
  refine ⟨?_, ?_, ?_, by decide⟩
  · intro reg event cls h
    simp [register, h]
  · intro reg event cls h hc hm
    have hm2 : (cls.hasApplies && cls.hasTransform) = false := by
      rcases hm with hm | hm <;> simp [hm]
    simp [register, h, hc, hm2]
  · intro l
    induction l with
    | nil =>
      intro reg reg' h hn
      simp only [registerSeq] at h
      cases h
      exact hn
    | cons p rest ih =>
      intro reg reg' h hn
      simp only [registerSeq] at h
      rcases hr : register p.1 p.2 reg with err | reg2
      · rw [hr] at h; exact Except.noConfusion h
      · rw [hr] at h
        refine ih reg2 reg' h ?_
        simp only [register] at hr
        by_cases hdup : (reg.lookup p.1).isSome
        · rw [if_pos hdup] at hr; exact Except.noConfusion hr
        rw [if_neg hdup] at hr
        by_cases hc : !p.2.isClass
        · rw [if_pos (by simpa using hc)] at hr
          exact Except.noConfusion hr
        rw [if_neg (by simpa using hc)] at hr
        by_cases hp : !(p.2.hasApplies && p.2.hasTransform)
        · rw [if_pos (by simpa using hp)] at hr
          exact Except.noConfusion hr
        rw [if_neg (by simpa using hp)] at hr
        have hreg2 : reg2 = reg ++ [(p.1, p.2)] :=
          (Except.ok.inj hr).symm
        rw [hreg2, List.map_append, List.nodup_append]
        refine ⟨hn, by simp, ?_⟩
        intro a ha hb
        simp only [List.map_cons, List.map_nil, List.mem_singleton] at hb
        rw [hb] at ha
        exact hdup ((lookup_isSome_iff_mem_keys reg p.1).mpr ha)

/-- Witness for C8: a duplicate registration and a defective class both
error, through the theorem itself. -/
theorem c8_register_contract_witness :
    register "ADT^A01" clsA01 theRegistry = .error .valueError ∧
    register "ZZZ^Z01" ⟨.adtA01, true, false, true⟩ [] =
      .error .typeError ∧
    (theRegistry.map Prod.fst).Nodup :=
  ⟨c8_register_contract.1 theRegistry "ADT^A01" clsA01 (by decide),
   c8_register_contract.2.1 [] "ZZZ^Z01" ⟨.adtA01, true, false, true⟩
     (by decide) (by decide) (Or.inl rfl),
   c8_register_contract.2.2.1 discoveryOrder [] theRegistry rfl
     (by simp)⟩

/-- Counterexample to claim C6: the claim says `applies` is true only
for a header textually equal to the bound code (or its extended
three-component form for ORU), but the ORU transformer uppercases the
rendering first, so the lowercase header `oru^r01` — equal to neither —
is accepted. -/
theorem c6_counterexample :
    oruR01Applies (some (hv "oru^r01")) = true ∧
    "oru^r01" ≠ "ORU^R01" ∧
    pyStartsWith "oru^r01" "ORU^R01" = false := by
  refine ⟨by decide, by decide, by decide⟩

/-- Claim C6 as amended: the ADT^A01, ADT^A03, ADT^A08 and ORM^O01
transformers accept exactly a header whose rendering equals their bound
code, with any header-read failure yielding false (for ADT^A03 the
caught class is the attribute error its header probing produces); the
ORU^R01 transformer instead uppercases the stripped rendering and
accepts whenever its first two caret components form `ORU^R01` or the
uppercased value starts with `ORU^R01` — so acceptance is
case-insensitive and prefix-based, and read failures or an empty
rendering yield false. -/
theorem c6_amended_applies :
    (∀ r : Option HVal, adtA01Applies r = true ↔
      ∃ t : Bool, r = some ⟨some "ADT^A01", t⟩) ∧
    (∀ r : Option HVal, adtA03Applies r = true ↔
      ∃ t : Bool, r = some ⟨some "ADT^A03", t⟩) ∧
    (∀ r : Option HVal, adtA08Applies r = true ↔
      ∃ t : Bool, r = some ⟨some "ADT^A08", t⟩) ∧
    (∀ r : Option HVal, ormO01Applies r = true ↔
      ∃ t : Bool, r = some ⟨some "ORM^O01", t⟩) ∧
    (∀ r : Option HVal,
      pyStartsWith (pyUpper (er7S r)) "ORU^R01" = true →
      oruR01Applies r = true) ∧
    (∀ (r : Option HVal) (c0 c1 : String) (rest : List String),
      pySplit '^' (pyUpper (er7S r)) = c0 :: c1 :: rest →
      c0 ++ "^" ++ c1 = "ORU^R01" →
      oruR01Applies r = true) ∧
    (oruR01Applies none = false ∧
     (∀ t : Bool, oruR01Applies (some ⟨none, t⟩) = false) ∧
     oruR01Applies (some (hv "")) = false ∧
     oruR01Applies (some (hv "ORU^R02")) = false) := by
  refine ⟨?_, ?_, ?_, ?_, ?_, ?_, rfl, fun t => by cases t <;> rfl,
    by decide, by decide⟩
  · intro r
    rcases r with _ | ⟨_ | s, t⟩ <;>
      simp [adtA01Applies, decide_eq_true_eq]
  · intro r
    rcases r with _ | ⟨_ | s, t⟩ <;>
      simp [adtA03Applies, decide_eq_true_eq]
  · intro r
    rcases r with _ | ⟨_ | s, t⟩ <;>
      simp [adtA08Applies, decide_eq_true_eq]
  · intro r
    rcases r with _ | ⟨_ | s, t⟩ <;>
      simp [ormO01Applies, decide_eq_true_eq]
  · intro r h
    simp only [oruR01Applies]
    by_cases hr : pyUpper (er7S r) = ""
    · rw [hr] at h
      exact absurd h (by decide)
    rw [if_neg hr]
    rcases hsplit : pySplit '^' (pyUpper (er7S r)) with _ | ⟨c0, _ | ⟨c1, rest⟩⟩
    · exact h
    · exact h
    · show (if c0 ++ "^" ++ c1 = "ORU^R01" then true
        else pyStartsWith (pyUpper (er7S r)) "ORU^R01") = true
      by_cases h2 : c0 ++ "^" ++ c1 = "ORU^R01"
      · rw [if_pos h2]
      · rw [if_neg h2]
        exact h
  · intro r c0 c1 rest hsplit h2
    have hr : pyUpper (er7S r) ≠ "" := by
      intro hh
      rw [hh] at hsplit
      have : pySplit '^' "" = [""] := rfl
      rw [this] at hsplit
      simp at hsplit
    simp only [oruR01Applies]
    rw [if_neg hr, hsplit]
    show (if c0 ++ "^" ++ c1 = "ORU^R01" then true
      else pyStartsWith (pyUpper (er7S r)) "ORU^R01") = true
    rw [if_pos h2]

/-- Witness for C6 at concrete headers. -/
theorem c6_amended_applies_witness :
    adtA01Applies (some ⟨some "ADT^A01", true⟩) = true ∧
    adtA03Applies (some ⟨some "ADT^A03", true⟩) = true ∧
    oruR01Applies (some (hv "ORU^R01^ORU_R01")) = true ∧
    oruR01Applies (some (hv "oru^r01extended")) = true :=
  ⟨(c6_amended_applies.1 (some ⟨some "ADT^A01", true⟩)).mpr ⟨true, rfl⟩,
   (c6_amended_applies.2.1 (some ⟨some "ADT^A03", true⟩)).mpr ⟨true, rfl⟩,
   c6_amended_applies.2.2.2.2.2.1 (some (hv "ORU^R01^ORU_R01"))
     "ORU" "R01" ["ORU_R01"] (by decide) (by decide),
   c6_amended_applies.2.2.2.2.1 (some (hv "oru^r01extended")) (by decide)⟩

/-- The ORU direct-children scan only returns truthy nodes. -/
theorem scanORU_truthy (children : List HNode) (seg : String) (ch : HNode)
    (h : scanORU children seg = some ch) : ch.truthy = true := by
  unfold scanORU at h
  have hp := List.find?_some h
  simp only [Bool.and_eq_true] at hp
  exact hp.2

/-- The recursive stage of the ORU locator never returns a non-truthy
node. -/
theorem findFirstORURec_truthy :
    ∀ (l : List HNode) (seg : String),
      findFirstORURec l seg = none ∨
      ∃ f, findFirstORURec l seg = some f ∧ f.truthy = true := by
  intro l seg
  induction l with
  | nil => left; rw [findFirstORURec]
  | cons ch rest ih =>
    rw [findFirstORURec]
    split
    · split
      · rename_i f hf
        split
        · rename_i ht
          exact Or.inr ⟨f, rfl, ht⟩
        · exact ih
      · exact ih
    · exact ih

/-- Counterexample to claim C7: the claim says the structured segment
locator returns absence when the only match is an empty container, but
the ORM^O01 locator returns the empty container found through the
attribute shortcut, so a caller can observe a found-but-empty result
there (the ORU^R01 locator, by contrast, maps it to absence). -/
theorem c7_counterexample :
    findFirstORM c7root "PID" = some c7emptySeg ∧
    HNode.truthy c7emptySeg = false ∧
    findFirstORU c7root "PID" = none := by
  refine ⟨?_, rfl, ?_⟩
  · rw [findFirstORM]; rfl
  · rw [findFirstORU, findFirstORURec.eq_def]; rfl

/-- Claim C7 as amended: the ORU^R01 locator treats empty containers
identically to absence — its result is either absence or a truthy node
— and every raising access inside either locator is caught and behaves
exactly like the corresponding absent case (raising accessors are
modelled by those cases, and both locators are total); the ORM^O01
locator, however, returns the first attribute or child-scan match even
when it is an empty (falsy) container. -/
theorem c7_amended_locator :
    (∀ (x : HNode) (seg : String),
      findFirstORU x seg = none ∨
      ∃ f, findFirstORU x seg = some f ∧ f.truthy = true) ∧
    (∀ (x : HNode) (seg : String) (cand : HNode),
      lookupAttr x seg = some cand → findFirstORM x seg = some cand) ∧
    (findFirstORM c7root "PID" = some c7emptySeg ∧
      HNode.truthy c7emptySeg = false) := by
  refine ⟨?_, ?_, ⟨by rw [findFirstORM]; rfl, rfl⟩⟩
  · intro x seg
    rw [findFirstORU]
    split
    · split
      · rename_i cand hla ht
        exact Or.inr ⟨cand, rfl, ht⟩
      · split
        · rename_i ch hs
          exact Or.inr ⟨ch, rfl, scanORU_truthy _ _ _ hs⟩
        · exact findFirstORURec_truthy _ _
    · split
      · rename_i ch hs
        exact Or.inr ⟨ch, rfl, scanORU_truthy _ _ _ hs⟩
      · exact findFirstORURec_truthy _ _
  · intro x seg cand h
    rw [findFirstORM, h]

/-- Witness for C7's amended theorem at the concrete empty-container
tree. -/
theorem c7_amended_locator_witness :
    findFirstORM c7root "PID" = some c7emptySeg ∧
    (findFirstORU c7root "PID" = none ∨
      ∃ f, findFirstORU c7root "PID" = some f ∧ f.truthy = true) :=
  ⟨c7_amended_locator.2.1 c7root "PID" c7emptySeg rfl,
   c7_amended_locator.1 c7root "PID"⟩

/-- The observation code wrapper is never empty: it carries a coding or
a text in every case. -/
theorem oruCodeCc_nonempty (obx : Option ObxSeg) (obxLine : Option String) :
    (oruCodeCc obx obxLine).coding ≠ none ∨
    (oruCodeCc obx obxLine).text ≠ none := by
  simp only [oruCodeCc]
  by_cases hc : (oruCodeVals obx obxLine).1.getD "" ≠ ""
  · rw [if_pos (by simp [hc]), if_pos hc]
    exact Or.inl (by simp)
  · by_cases ht : (oruCodeVals obx obxLine).2.getD "" ≠ ""
    · rw [if_pos (by simp [ht])]
      refine Or.inr ?_
      intro hh
      have hh2 : (oruCodeVals obx obxLine).2 = none := hh
      rw [hh2] at ht
      simp at ht
    · rw [if_neg (by simp [hc, ht] : ¬ _)]
      exact Or.inr (by simp)

/-- Counterexample to claim C9: the claim says the encounter-class field
of a produced encounter is always present as a coded-concept wrapper,
but the ADT^A01 transformer produces an encounter that never carries a
class at all. -/
theorem c9_counterexample :
    (buildEncounterA01 (some emptyPv1)).classFhir = none ∧
    adtA01Transform ⟨none, some emptyPv1⟩ =
      [.patient emptyPatient,
       .encounter { emptyEncounter with status := some "in-progress" }] ∧
    ({ emptyEncounter with status := some "in-progress" } :
      EncounterR).classFhir = none := by
  refine ⟨rfl, rfl, rfl⟩

/-- Claim C9 as amended: the result-code field of every produced ORU
observation is a coded-concept wrapper that is always present and
non-empty, falling back to the explicit `Unspecified Observation`
placeholder when no source code was extracted; the ADT^A03 and ADT^A08
encounters always carry a class wrapper (empty-coding fallback); but the
ADT^A01 encounter carries no class at all. -/
theorem c9_amended_code_wrappers :
    (∀ (obr : Option ObrSeg) (obx : Option ObxSeg) (patient : PatientR)
        (obrLine obxLine : Option String) (n : Nat),
      (buildObservationORU obr obx patient obrLine obxLine n).code.coding ≠
        none ∨
      (buildObservationORU obr obx patient obrLine obxLine n).code.text ≠
        none) ∧
    (∀ obxLine : Option String,
      fieldCompFromEr7 obxLine 3 1 = none →
      fieldCompFromEr7 obxLine 3 2 = none →
      ∀ (obr : Option ObrSeg) (patient : PatientR)
        (obrLine : Option String) (n : Nat),
      (buildObservationORU obr none patient obrLine obxLine n).code =
        ⟨none, some "Unspecified Observation"⟩) ∧
    (∀ msg : AdtMsg, ∃ e : EncounterR,
      (adtA03Transform msg).get? 1 = some (.encounter e) ∧
      e.classFhir ≠ none) ∧
    (∀ msg : AdtMsg, ∃ e : EncounterR,
      (adtA08Transform msg).get? 1 = some (.encounter e) ∧
      e.classFhir ≠ none) ∧
    (∀ msg : AdtMsg, ∃ e : EncounterR,
      (adtA01Transform msg).get? 1 = some (.encounter e) ∧
      e.classFhir = none) := by
  refine ⟨?_, ?_, ?_, ?_, ?_⟩
  · intro obr obx patient obrLine obxLine n
    exact oruCodeCc_nonempty obx obxLine
  · intro obxLine h1 h2 obr patient obrLine n
    show oruCodeCc none obxLine = _
    simp only [oruCodeCc, oruCodeVals, h1, h2]
    rfl
  · intro msg
    exact ⟨_, rfl, fun hh => Option.noConfusion hh⟩
  · intro msg
    exact ⟨_, rfl, fun hh => Option.noConfusion hh⟩
  · intro msg
    refine ⟨buildEncounterA01 msg.PV1, rfl, ?_⟩
    rcases msg with ⟨pid, _ | pv1⟩ <;> rfl

/-- Witness for C9's amended theorem at concrete inputs. -/
theorem c9_amended_code_wrappers_witness :
    (buildObservationORU none none emptyPatient none none 1).code =
      ⟨none, some "Unspecified Observation"⟩ ∧
    (∃ e : EncounterR,
      (adtA03Transform ⟨none, none⟩).get? 1 = some (.encounter e) ∧
      e.classFhir ≠ none) :=
  ⟨c9_amended_code_wrappers.2.1 none rfl rfl none emptyPatient none 1,
   c9_amended_code_wrappers.2.2.1 ⟨none, none⟩⟩

/-- Claim C10: for every input message — including one with no PID and
no PV1 segment at all — each of the ADT^A01, ADT^A03 and ADT^A08
transformers returns exactly two records, the patient first and the
encounter second; a missing PID yields an empty patient record rather
than fewer records or an error (the transforms are total). -/
theorem c10_adt_two_records :
    ∀ msg : AdtMsg,
      ((adtA01Transform msg).length = 2 ∧
        ∃ p e, adtA01Transform msg = [.patient p, .encounter e] ∧
          (msg.PID = none → p = emptyPatient)) ∧
      ((adtA03Transform msg).length = 2 ∧
        ∃ p e, adtA03Transform msg = [.patient p, .encounter e] ∧
          (msg.PID = none → p = emptyPatient)) ∧
      ((adtA08Transform msg).length = 2 ∧
        ∃ p e, adtA08Transform msg = [.patient p, .encounter e] ∧
          (msg.PID = none → p = emptyPatient)) := by
  intro msg
  refine ⟨⟨rfl, buildPatientA01 msg.PID, buildEncounterA01 msg.PV1, rfl,
      fun h => by rw [h]; rfl⟩,
    ⟨rfl, ?_⟩, ⟨rfl, ?_⟩⟩
  · exact ⟨buildPatientA03 msg.PID, _, rfl, fun h => by rw [h]; rfl⟩
  · exact ⟨buildPatientA08 msg.PID, _, rfl, fun h => by rw [h]; rfl⟩

/-- Witness for C10 at the fully-empty message. -/
theorem c10_adt_two_records_witness :
    (adtA01Transform ⟨none, none⟩).length = 2 ∧
    (adtA03Transform ⟨none, none⟩).length = 2 ∧
    (adtA08Transform ⟨none, none⟩).length = 2 ∧
    (∃ p e, adtA01Transform ⟨none, none⟩ = [.patient p, .encounter e] ∧
      p = emptyPatient) := by
  obtain ⟨⟨l1, p1⟩, ⟨l2, _⟩, ⟨l3, _⟩⟩ := c10_adt_two_records ⟨none, none⟩
  obtain ⟨p, e, heq, himp⟩ := p1
  exact ⟨l1, l2, l3, p, e, heq, himp rfl⟩

end HL7
